import Mathlib

/-!
Shallow embedding of `src/httpcore/_async/http_proxy.py`: the proxy-aware
connection layer (header merging, forward connections, CONNECT-tunnel
connections, and the proxy connection factory), together with theorems
settling the specification claims about it.

Python `bytes` values are modelled as lists of byte values (`List Nat`,
each entry < 256 on real inputs); Python `str` values as `String`.
Asynchronous methods are modelled as pure state-transition functions: the
per-instance mutual-exclusion lock of the tunnel connection makes the
guarded handshake block atomic, so a run of concurrent calls is modelled
as a sequence of atomic calls in an arbitrary order.
-/

set_option autoImplicit false

namespace HttpProxy

/-- Python bytes, a sequence of byte values. -/
abbrev ByteStr := List Nat

/-- ASCII lowercasing of a single byte, as Python `bytes.lower` does per byte. -/
def lowerByte (b : Nat) : Nat :=
  if 65 ≤ b ∧ b ≤ 90 then b + 32 else b

/-- Python `bytes.lower()`: ASCII-lowercase every byte. -/
def bytesLower (bs : ByteStr) : ByteStr := bs.map lowerByte

/-- Render an ASCII string as its byte sequence (used to write byte literals). -/
def strBytes (s : String) : ByteStr := s.toList.map Char.toNat

/-- Python `bs.decode("ascii", errors="ignore")`: keep only the bytes that are
valid ASCII (< 128) and decode them; malformed bytes are dropped, never raising. -/
def decodeAsciiIgnore (bs : ByteStr) : String :=
  String.mk ((bs.filter (fun b => b < 128)).map (fun b => Char.ofNat b))

/-- A header list: ordered (name, value) pairs, duplicates allowed. -/
abbrev Headers := List (ByteStr × ByteStr)

/-- The function `merge_headers` (http_proxy.py lines 32-48): append
`default_headers` and `override_headers`, dropping every default pair whose
lowercased key occurs among the lowercased override keys.  The Python
signature accepts `None` for either argument and treats it as the empty
list; callers in this module always pass concrete sequences, so the model
takes plain lists. -/
def merge_headers (default_headers override_headers : Headers) : Headers :=
  let has_override := override_headers.map (fun kv => bytesLower kv.1)
  (default_headers.filter (fun kv => decide (bytesLower kv.1 ∉ has_override)))
    ++ override_headers

/-- HeaderMerge as the specification words it (spec 4.1): collect the set of
override keys, lower-cased; emit every default pair whose lower-cased key is
not in that set, in original order, followed by every override pair in
original order. -/
def specHeaderMerge (defaults overrides : Headers) : Headers :=
  let overrideKeys := overrides.map (fun kv => bytesLower kv.1)
  (defaults.filter (fun kv => decide (bytesLower kv.1 ∉ overrideKeys)))
    ++ overrides

/-- Number of pairs in a header list whose key equals `k` exactly. -/
def countKey (k : ByteStr) (hs : Headers) : Nat :=
  hs.countP (fun kv => decide (kv.1 = k))

/-- Number of pairs in a header list whose key equals `k` up to ASCII case. -/
def countKeyCI (k : ByteStr) (hs : Headers) : Nat :=
  hs.countP (fun kv => decide (bytesLower kv.1 = bytesLower k))

/-- An `Origin` (scheme, host, port); equality is exact field match. -/
structure Origin where
  scheme : ByteStr
  host : ByteStr
  port : Nat
deriving DecidableEq, Repr

/-- A `URL` as this module uses it: scheme, host, port, request target. -/
structure URLm where
  scheme : ByteStr
  host : ByteStr
  port : Nat
  target : ByteStr
deriving DecidableEq, Repr

/-- A `Request` as this module observes it: method, URL and headers.  The
body stream and the extensions mapping are carried through the forward
path unchanged and are not modelled as data. -/
structure Requestm where
  method : ByteStr
  url : URLm
  headers : Headers
deriving DecidableEq, Repr

/-- Modelled from the spec: `bytes(request.url)` (implemented in
`_models.py`, which is not under src/) renders the full original URL in
absolute form, `scheme "://" host ":" port target`. -/
def urlAsBytes (u : URLm) : ByteStr :=
  u.scheme ++ strBytes "://" ++ u.host ++ strBytes ":"
    ++ strBytes (Nat.repr u.port) ++ u.target

/-- An SSL context, tracking the one aspect this module touches: the list of
ALPN protocols configured by `set_alpn_protocols`.  Every other aspect of the
context is untouched by this module. -/
structure SSLCtx where
  alpn_protocols : List String
deriving DecidableEq, Repr

/-- The state of `AsyncForwardHTTPConnection` (http_proxy.py lines 180-206):
the fields stored by its constructor.  The held proxy-facing
`AsyncHTTPConnection` is bound to `proxy_origin`; its internals live outside
this module and are not modelled here. -/
structure ForwardState where
  proxy_origin : Origin
  remote_origin : Origin
  proxy_headers : Headers
deriving DecidableEq, Repr

/-- The proxy-facing request built by
`AsyncForwardHTTPConnection.handle_async_request` (lines 208-222): headers
are `merge_headers(self._proxy_headers, request.headers)`; the URL takes the
proxy origin scheme, host and port with the rendered original URL as target;
method is carried through (as are the body stream and extensions, which this
model does not represent as data). -/
def forward_build_request (self : ForwardState) (request : Requestm) : Requestm :=
  let headers := merge_headers self.proxy_headers request.headers
  let url : URLm :=
    { scheme := self.proxy_origin.scheme
      host := self.proxy_origin.host
      port := self.proxy_origin.port
      target := urlAsBytes request.url }
  { method := request.method, url := url, headers := headers }

/-- `AsyncForwardHTTPConnection.can_handle_request` (lines 225-226):
`origin == self._remote_origin`. -/
def forward_can_handle (self : ForwardState) (origin : Origin) : Bool :=
  decide (origin = self.remote_origin)

/-- The raw proxy-facing connection held by a tunnel connection before the
tunnel is established (an `AsyncHTTPConnection` bound to the proxy origin);
the model tracks only whether it has been closed. -/
structure RawConn where
  closed : Bool
deriving DecidableEq, Repr

/-- The value of the `_connection` field of `AsyncTunnelHTTPConnection`:
initially the raw proxy-facing connection, reassigned at tunnel
establishment to an `AsyncHTTP2Connection` or `AsyncHTTP11Connection`
adapter bound to the remote origin over the upgraded stream.  For the
adapters the model tracks the bound origin and whether they are closed. -/
inductive Delegate where
  | raw (conn : RawConn)
  | h11 (origin : Origin) (closed : Bool)
  | h2 (origin : Origin) (closed : Bool)
deriving DecidableEq, Repr

/-- The variant currently held by the `_connection` field.  The Python field
is reassigned exactly when the variant changes from `raw` to an adapter;
closing mutates the held object without reassigning the field. -/
inductive DelegateKind where
  | raw
  | h11
  | h2
deriving DecidableEq, Repr

/-- Which variant a delegate value is. -/
def delegateKind : Delegate → DelegateKind
  | .raw _ => .raw
  | .h11 _ _ => .h11
  | .h2 _ _ => .h2

/-- Whether the delegate is the HTTP/2 adapter. -/
def isH2 (d : Delegate) : Bool := decide (delegateKind d = .h2)

/-- Whether the delegate is the HTTP/1.1 adapter. -/
def isH11 (d : Delegate) : Bool := decide (delegateKind d = .h11)

/-- Modelled from the spec: `is_closed` of the held connection object
(`AsyncHTTPConnection` and the HTTP/1.1 / HTTP/2 adapters live outside this
module) reports whether that connection has been closed. -/
def delegateIsClosed : Delegate → Bool
  | .raw c => c.closed
  | .h11 _ closed => closed
  | .h2 _ closed => closed

/-- Modelled from the spec: delegating a request to the held connection
object (external classes) succeeds on an open connection and raises
`ConnectionNotAvailable` once the connection is closed. -/
def delegateHandle (d : Delegate) : Bool :=
  !(delegateIsClosed d)

/-- The state of `AsyncTunnelHTTPConnection` (http_proxy.py lines 250-286):
the configuration fields stored by the constructor, the `_connection`
delegate field, and the `_connected` flag.  The `_connect_lock` is modelled
by making the guarded block of `handle_async_request` a single atomic
transition. -/
structure TunnelState where
  proxy_origin : Origin
  remote_origin : Origin
  ssl_context : Option SSLCtx
  proxy_ssl_context : Option SSLCtx
  proxy_headers : Headers
  http1 : Bool
  http2 : Bool
  connection : Delegate
  connected : Bool
deriving DecidableEq, Repr

/-- The constructor `AsyncTunnelHTTPConnection.__init__` (lines 251-286):
store the configuration, hold the raw proxy-facing connection, start with
`_connected = False`. -/
def initTunnel (proxy_origin remote_origin : Origin)
    (ssl_context proxy_ssl_context : Option SSLCtx)
    (proxy_headers : Headers) (http1 http2 : Bool) : TunnelState :=
  { proxy_origin := proxy_origin
    remote_origin := remote_origin
    ssl_context := ssl_context
    proxy_ssl_context := proxy_ssl_context
    proxy_headers := proxy_headers
    http1 := http1
    http2 := http2
    connection := .raw { closed := false }
    connected := false }

/-- `AsyncTunnelHTTPConnection.can_handle_request` (lines 368-369):
`origin == self._remote_origin`. -/
def tunnel_can_handle (self : TunnelState) (origin : Origin) : Bool :=
  decide (origin = self.remote_origin)

/-- `AsyncTunnelHTTPConnection.is_closed` (lines 386-387): delegates to the
held connection. -/
def tunnel_is_closed (self : TunnelState) : Bool :=
  delegateIsClosed self.connection

/-- The stub environment a tunnel handshake runs against, standing for the
proxy server and the TLS layer reached through the raw proxy-facing
connection: the status of the CONNECT response, the optional
`reason_phrase` entry of its extensions, and the outcome of
`stream.get_extra_info("ssl_object")` after the TLS upgrade — `none` when
there is no ssl object, otherwise `some` of the value of
`selected_alpn_protocol()` (itself optional).  A 2xx CONNECT response
produced by this library's own connection classes always carries a
`network_stream` extension, so the stream is always present here. -/
structure Env where
  connectStatus : Nat
  reasonPhrase : Option ByteStr
  alpnSelected : Option (Option String)
deriving DecidableEq, Repr

/-- The outcome of one `handle_async_request` call on a tunnel connection. -/
inductive Result where
  /-- The request was delegated to the inner connection and answered. -/
  | ok
  /-- `ProxyError(msg)` was raised (lines 315-320). -/
  | proxyError (msg : String)
  /-- Modelled from the spec: the proxy-facing connection (class
  `AsyncHTTPConnection`, outside this module) raises
  `ConnectionNotAvailable` when asked to send over a closed connection. -/
  | connectionNotAvailable
deriving DecidableEq, Repr

/-- A tunnel connection together with the count of CONNECT round trips that
actually reached the stub transport (the "counting stub transport" of the
specification). -/
structure World where
  tunnel : TunnelState
  handshakes : Nat
deriving DecidableEq, Repr

/-- Python `ssl_object is not None and ssl_object.selected_alpn_protocol() == "h2"`
(lines 344-347). -/
def http2Negotiated (alpnSelected : Option (Option String)) : Bool :=
  match alpnSelected with
  | some sel => decide (sel = some "h2")
  | none => false

/-- `["http/1.1", "h2"] if self._http2 else ["http/1.1"]` (line 330). -/
def alpnOffer (http2 : Bool) : List String :=
  if http2 then ["http/1.1", "h2"] else ["http/1.1"]

/-- `AsyncTunnelHTTPConnection.handle_async_request` (lines 288-366) as one
atomic transition (the guarded block runs under `_connect_lock`).  When
`_connected` is set, the guarded block is a no-op and the request is
delegated.  Otherwise a CONNECT request is sent over the held connection
(raising `ConnectionNotAvailable` without reaching the network if that
connection is already closed); a status outside [200, 299] closes the
proxy-facing connection in place and raises `ProxyError` with the decoded
reason phrase; on success the stream is upgraded to TLS — which sets the
ALPN protocol list on the configured (or default) SSL context — the
HTTP/2 or HTTP/1.1 adapter is instantiated from the ALPN outcome and the
protocol flags, `_connection` is reassigned to it and `_connected` set.
The CONNECT target, URL, header construction (lines 294-310) and the
connect timeout extraction (lines 289-290) have no effect observable in
this model beyond the round trip itself and are not recorded.  The arms
for an unconnected state holding an adapter delegate are unreachable from
any fresh instance (the invariant is proved below) and delegate directly. -/
def handleRequest (env : Env) (w : World) : Result × World :=
  let t := w.tunnel
  if t.connected then
    (if delegateHandle t.connection then .ok else .connectionNotAvailable, w)
  else
    match t.connection with
    | .raw c =>
      if c.closed then
        (.connectionNotAvailable, w)
      else
        let handshakes := w.handshakes + 1
        let status := env.connectStatus
        if status < 200 ∨ status > 299 then
          let reason_str := decodeAsciiIgnore (env.reasonPhrase.getD [])
          let msg := Nat.repr status ++ " " ++ reason_str
          (.proxyError msg,
            { tunnel := { t with connection := .raw { closed := true } }
              handshakes := handshakes })
        else
          let new_ssl :=
            t.ssl_context.map (fun ctx => { ctx with alpn_protocols := alpnOffer t.http2 })
          let conn :=
            if http2Negotiated env.alpnSelected ∨ (t.http2 = true ∧ t.http1 = false) then
              Delegate.h2 t.remote_origin false
            else
              Delegate.h11 t.remote_origin false
          let t' := { t with connection := conn, connected := true, ssl_context := new_ssl }
          (if delegateHandle conn then .ok else .connectionNotAvailable,
            { tunnel := t', handshakes := handshakes })
    | d =>
      (if delegateHandle d then .ok else .connectionNotAvailable, w)

/-- Run `n` calls of `handle_async_request` in sequence on the same tunnel
connection against the same stub environment, collecting each call's
outcome.  Under the connect lock, any interleaving of `n` concurrent calls
executes the guarded blocks in some total order, which this sequence
represents. -/
def runCalls (env : Env) : Nat → World → World × List Result
  | 0, w => (w, [])
  | n + 1, w =>
    let step := handleRequest env w
    let rest := runCalls env n step.2
    (rest.1, step.1 :: rest.2)

/-- The configuration of `AsyncHTTPProxy` consulted by `create_connection`:
the proxy URL origin, the client and proxy-facing SSL contexts, the proxy
headers, and the protocol flags (the remaining pool settings are passed
through to the created connection and play no role in the claims). -/
structure ProxyPool where
  proxy_origin : Origin
  ssl_context : Option SSLCtx
  proxy_ssl_context : Option SSLCtx
  proxy_headers : Headers
  http1 : Bool
  http2 : Bool
deriving DecidableEq, Repr

/-- The connection returned by the factory: a forward connection or a
tunnel connection. -/
inductive ProxyConnection where
  | forward (f : ForwardState)
  | tunnel (t : TunnelState)
deriving DecidableEq, Repr

/-- `AsyncHTTPProxy.create_connection` (lines 149-177): an origin with
scheme `b"http"` gets an `AsyncForwardHTTPConnection`, any other origin an
`AsyncTunnelHTTPConnection`, each bound to that origin as remote origin. -/
def create_connection (self : ProxyPool) (origin : Origin) : ProxyConnection :=
  if origin.scheme = strBytes "http" then
    .forward
      { proxy_origin := self.proxy_origin
        remote_origin := origin
        proxy_headers := self.proxy_headers }
  else
    .tunnel
      (initTunnel self.proxy_origin origin self.ssl_context
        self.proxy_ssl_context self.proxy_headers self.http1 self.http2)

/-- Whether the factory returned a forward connection. -/
def isForwardConn : ProxyConnection → Bool
  | .forward _ => true
  | .tunnel _ => false

/-- The remote origin the returned connection is bound to. -/
def connRemoteOrigin : ProxyConnection → Origin
  | .forward f => f.remote_origin
  | .tunnel t => t.remote_origin

/-- `can_handle_request` of the returned connection. -/
def connCanHandle : ProxyConnection → Origin → Bool
  | .forward f, o => forward_can_handle f o
  | .tunnel t, o => tunnel_can_handle t o

/-! ### Helper lemmas -/

/-- The Python condition `ssl_object is not None and
ssl_object.selected_alpn_protocol() == "h2"` holds exactly when there is an
ssl object whose selected ALPN protocol is `"h2"`. -/
theorem http2Negotiated_eq (a : Option (Option String)) :
    http2Negotiated a = true ↔ a = some (some "h2") := by
  cases a with
  | none => simp [http2Negotiated]
  | some sel => simp [http2Negotiated]

/-- A call on a connected tunnel whose delegate answers returns `ok` and
leaves the state untouched. -/
theorem handleRequest_connected_eq (env : Env) (w : World)
    (hc : w.tunnel.connected = true) :
    handleRequest env w =
      (if delegateHandle w.tunnel.connection then .ok else .connectionNotAvailable, w) := by
  simp only [handleRequest, hc, if_true]

/-- A call on an unconnected tunnel whose raw proxy-facing connection is
already closed fails with `ConnectionNotAvailable` and changes nothing. -/
theorem handleRequest_closedRaw_eq (env : Env) (w : World) (c : RawConn)
    (hc : w.tunnel.connected = false)
    (hr : w.tunnel.connection = .raw c) (hcl : c.closed = true) :
    handleRequest env w = (.connectionNotAvailable, w) := by
  simp [handleRequest, hc, hr, hcl]

/-- The rejected-CONNECT path of `handle_async_request` (lines 315-320): the
proxy-facing connection is closed in place, one CONNECT round trip was
counted, and `ProxyError` carries the status and the permissively decoded
reason phrase. -/
theorem handleRequest_fail_eq (env : Env) (w : World) (c : RawConn)
    (hc : w.tunnel.connected = false)
    (hr : w.tunnel.connection = .raw c) (hcl : c.closed = false)
    (hst : env.connectStatus < 200 ∨ env.connectStatus > 299) :
    handleRequest env w =
      (.proxyError (Nat.repr env.connectStatus ++ " "
          ++ decodeAsciiIgnore (env.reasonPhrase.getD [])),
        { tunnel := { w.tunnel with connection := .raw { closed := true } }
          handshakes := w.handshakes + 1 }) := by
  simp only [handleRequest, hc, hr, hcl, Bool.false_eq_true, if_false]
  rw [if_pos hst]

/-- The successful-CONNECT path of `handle_async_request` (lines 322-366):
one CONNECT round trip was counted, the configured SSL context (when
supplied) gets the offered ALPN protocol list, the delegate becomes the
HTTP/2 adapter when ALPN selected `"h2"` or HTTP/2 is enabled with HTTP/1.1
disabled and otherwise the HTTP/1.1 adapter, and the request is answered. -/
theorem handleRequest_success_eq (env : Env) (w : World) (c : RawConn)
    (hc : w.tunnel.connected = false)
    (hr : w.tunnel.connection = .raw c) (hcl : c.closed = false)
    (hst : ¬(env.connectStatus < 200 ∨ env.connectStatus > 299)) :
    handleRequest env w =
      (.ok,
        { tunnel := { w.tunnel with
            connection :=
              if http2Negotiated env.alpnSelected
                  ∨ (w.tunnel.http2 = true ∧ w.tunnel.http1 = false) then
                Delegate.h2 w.tunnel.remote_origin false
              else
                Delegate.h11 w.tunnel.remote_origin false
            connected := true
            ssl_context := w.tunnel.ssl_context.map
              (fun ctx => { ctx with alpn_protocols := alpnOffer w.tunnel.http2 }) }
          handshakes := w.handshakes + 1 }) := by
  simp only [handleRequest, hc, hr, hcl, Bool.false_eq_true, if_false]
  rw [if_neg hst]
  by_cases hcond : http2Negotiated env.alpnSelected
      ∨ (w.tunnel.http2 = true ∧ w.tunnel.http1 = false)
  · simp only [if_pos hcond]
    simp [delegateHandle, delegateIsClosed]
  · simp only [if_neg hcond]
    simp [delegateHandle, delegateIsClosed]

/-- Once connected with an answering delegate, every further call returns
`ok` and leaves the world unchanged. -/
theorem runCalls_connected_ok (env : Env) (n : Nat) (w : World)
    (hc : w.tunnel.connected = true)
    (hok : delegateHandle w.tunnel.connection = true) :
    runCalls env n w = (w, List.replicate n .ok) := by
  induction n with
  | zero => simp [runCalls]
  | succ n ih =>
    have hstep : handleRequest env w = (.ok, w) := by
      rw [handleRequest_connected_eq env w hc, hok]
      simp
    simp [runCalls, hstep, ih, List.replicate_succ]

/-- Once the raw proxy-facing connection is closed and the tunnel is still
unconnected, every further call fails with `ConnectionNotAvailable` and
leaves the world unchanged. -/
theorem runCalls_closedRaw (env : Env) (n : Nat) (w : World)
    (hc : w.tunnel.connected = false)
    (hr : w.tunnel.connection = .raw { closed := true }) :
    runCalls env n w = (w, List.replicate n .connectionNotAvailable) := by
  induction n with
  | zero => simp [runCalls]
  | succ n ih =>
    have hstep : handleRequest env w = (.connectionNotAvailable, w) :=
      handleRequest_closedRaw_eq env w { closed := true } hc hr rfl
    simp [runCalls, hstep, ih, List.replicate_succ]

/-- A call on an unconnected tunnel holding an HTTP/1.1 adapter delegate (a
state unreachable from any fresh instance) delegates directly. -/
theorem handleRequest_h11_eq (env : Env) (w : World) (o : Origin) (cl : Bool)
    (hc : w.tunnel.connected = false)
    (hr : w.tunnel.connection = .h11 o cl) :
    handleRequest env w =
      (if delegateHandle (.h11 o cl) then .ok else .connectionNotAvailable, w) := by
  simp [handleRequest, hc, hr]

/-- A call on an unconnected tunnel holding an HTTP/2 adapter delegate (a
state unreachable from any fresh instance) delegates directly. -/
theorem handleRequest_h2_eq (env : Env) (w : World) (o : Origin) (cl : Bool)
    (hc : w.tunnel.connected = false)
    (hr : w.tunnel.connection = .h2 o cl) :
    handleRequest env w =
      (if delegateHandle (.h2 o cl) then .ok else .connectionNotAvailable, w) := by
  simp [handleRequest, hc, hr]

/-- Exhaustive outcome analysis of one `handle_async_request` call: either
the world is unchanged, or the guarded handshake ran — the call found the
connection unconnected, counted exactly one more CONNECT round trip, and
either closed the raw proxy-facing connection in place (rejected CONNECT)
or transitioned to connected with an adapter delegate. -/
theorem handleRequest_outcomes (env : Env) (w : World) :
    (handleRequest env w).2 = w ∨
    (w.tunnel.connected = false ∧
      (handleRequest env w).2.handshakes = w.handshakes + 1 ∧
      ((∃ c, w.tunnel.connection = Delegate.raw c ∧
          (handleRequest env w).2.tunnel.connected = false ∧
          (handleRequest env w).2.tunnel.connection =
            Delegate.raw { closed := true }) ∨
        ((handleRequest env w).2.tunnel.connected = true ∧
          (∃ c, w.tunnel.connection = Delegate.raw c) ∧
          delegateKind (handleRequest env w).2.tunnel.connection ≠
            DelegateKind.raw))) := by
  cases hc : w.tunnel.connected with
  | true => exact Or.inl (by rw [handleRequest_connected_eq env w hc])
  | false =>
    cases hd : w.tunnel.connection with
    | raw c =>
      cases hcl : c.closed with
      | true => exact Or.inl (by rw [handleRequest_closedRaw_eq env w c hc hd hcl])
      | false =>
        by_cases hst : env.connectStatus < 200 ∨ env.connectStatus > 299
        · have heq := handleRequest_fail_eq env w c hc hd hcl hst
          rw [heq]
          exact Or.inr ⟨rfl, rfl, Or.inl ⟨c, rfl, hc, rfl⟩⟩
        · have heq := handleRequest_success_eq env w c hc hd hcl hst
          rw [heq]
          refine Or.inr ⟨rfl, rfl, Or.inr ⟨rfl, ⟨c, rfl⟩, ?_⟩⟩
          by_cases hcond : http2Negotiated env.alpnSelected
              ∨ (w.tunnel.http2 = true ∧ w.tunnel.http1 = false) <;>
            simp [hcond, delegateKind]
    | h11 o cl => exact Or.inl (by rw [handleRequest_h11_eq env w o cl hc hd])
    | h2 o cl => exact Or.inl (by rw [handleRequest_h2_eq env w o cl hc hd])

/-- The first call on a fresh tunnel against a rejecting proxy raises
`ProxyError` and closes the raw connection; every later call fails with
`ConnectionNotAvailable` without another round trip. -/
theorem runCalls_fresh_fail (env : Env) (m : Nat) (w : World)
    (hc : w.tunnel.connected = false)
    (hr : w.tunnel.connection = .raw { closed := false })
    (hst : env.connectStatus < 200 ∨ env.connectStatus > 299) :
    runCalls env (m + 1) w =
      ({ tunnel := { w.tunnel with connection := .raw { closed := true } }
         handshakes := w.handshakes + 1 },
       Result.proxyError (Nat.repr env.connectStatus ++ " "
          ++ decodeAsciiIgnore (env.reasonPhrase.getD []))
         :: List.replicate m .connectionNotAvailable) := by
  have h1 := handleRequest_fail_eq env w { closed := false } hc hr rfl hst
  simp only [runCalls, h1]
  have h2 := runCalls_closedRaw env m
    { tunnel := { w.tunnel with connection := Delegate.raw { closed := true } }
      handshakes := w.handshakes + 1 } hc rfl
  rw [h2]

/-- The first call on a fresh tunnel against an accepting proxy performs
the single handshake and transitions to connected; every later call is
answered over the shared inner connection. -/
theorem runCalls_fresh_success (env : Env) (m : Nat) (w : World)
    (hc : w.tunnel.connected = false)
    (hr : w.tunnel.connection = .raw { closed := false })
    (hst : ¬(env.connectStatus < 200 ∨ env.connectStatus > 299)) :
    runCalls env (m + 1) w =
      ({ tunnel := { w.tunnel with
           connection :=
             if http2Negotiated env.alpnSelected
                 ∨ (w.tunnel.http2 = true ∧ w.tunnel.http1 = false) then
               Delegate.h2 w.tunnel.remote_origin false
             else
               Delegate.h11 w.tunnel.remote_origin false
           connected := true
           ssl_context := w.tunnel.ssl_context.map
             (fun ctx => { ctx with alpn_protocols := alpnOffer w.tunnel.http2 }) }
         handshakes := w.handshakes + 1 },
       Result.ok :: List.replicate m .ok) := by
  have h1 := handleRequest_success_eq env w { closed := false } hc hr rfl hst
  simp only [runCalls, h1]
  have hok : delegateHandle
      (if http2Negotiated env.alpnSelected
          ∨ (w.tunnel.http2 = true ∧ w.tunnel.http1 = false) then
        Delegate.h2 w.tunnel.remote_origin false
      else
        Delegate.h11 w.tunnel.remote_origin false) = true := by
    by_cases hcond : http2Negotiated env.alpnSelected
        ∨ (w.tunnel.http2 = true ∧ w.tunnel.http1 = false) <;>
      simp [hcond, delegateHandle, delegateIsClosed]
  have h2 := runCalls_connected_ok env m
    { tunnel := { w.tunnel with
        connection :=
          if http2Negotiated env.alpnSelected
              ∨ (w.tunnel.http2 = true ∧ w.tunnel.http1 = false) then
            Delegate.h2 w.tunnel.remote_origin false
          else
            Delegate.h11 w.tunnel.remote_origin false
        connected := true
        ssl_context := w.tunnel.ssl_context.map
          (fun ctx => { ctx with alpn_protocols := alpnOffer w.tunnel.http2 }) }
      handshakes := w.handshakes + 1 } rfl hok
  rw [h2]

/-! ### Claim theorems -/

/-- Concrete forward connection whose configured proxy header name conflicts
case-insensitively with a header of the incoming request. -/
def cexForward : ForwardState :=
  { proxy_origin := ⟨strBytes "http", strBytes "proxy", 8080⟩
    remote_origin := ⟨strBytes "http", strBytes "example", 80⟩
    proxy_headers := [(strBytes "X-A", strBytes "proxy")] }

/-- Concrete incoming request carrying a header that conflicts with the
configured proxy header of `cexForward`. -/
def cexRequest : Requestm :=
  { method := strBytes "GET"
    url := ⟨strBytes "http", strBytes "example", 80, strBytes "/"⟩
    headers := [(strBytes "x-a", strBytes "req")] }

/-- C1 counterexample: the proxy-facing request built by the forward
connection does not equal HeaderMerge with the configured proxy headers as
the overrides — on the conflicting name `x-a` the incoming request header
wins and the configured proxy header `X-A` is dropped, the opposite of the
claim. -/
theorem forward_headers_cex :
    (forward_build_request cexForward cexRequest).headers ≠
      merge_headers cexRequest.headers cexForward.proxy_headers ∧
    (forward_build_request cexForward cexRequest).headers =
      [(strBytes "x-a", strBytes "req")] := by
  constructor
  · decide
  · decide

/-- C1 (amended): for every request handled by a forward connection, the
headers of the proxy-facing request it builds equal HeaderMerge applied
with the incoming request headers as the overrides onto the configured
proxy headers, so that on a case-insensitively conflicting name the
incoming request header value wins and the configured proxy header is
dropped. -/
theorem forward_headers_merge (self : ForwardState) (request : Requestm) :
    (forward_build_request self request).headers =
      merge_headers self.proxy_headers request.headers := rfl

/-- Override list with a duplicated key, refuting the exactly-once part of
claim C7. -/
def cexOverrides : Headers :=
  [(strBytes "A", strBytes "1"), (strBytes "A", strBytes "2")]

/-- C7 counterexample: the key `A` appears in the overrides, yet in the
output of HeaderMerge on empty defaults it appears twice, not exactly
once. -/
theorem merge_override_once_cex :
    0 < countKey (strBytes "A") cexOverrides ∧
    countKey (strBytes "A") (merge_headers [] cexOverrides) ≠ 1 := by
  constructor
  · decide
  · decide

/-- C7 (amended): every key that appeared in overrides appears in the
output of HeaderMerge exactly as many times as it appeared in the
overrides (hence exactly once when the overrides list it once), and every
default entry whose key case-insensitively appears among the override keys
is dropped entirely: the case-insensitive occurrence count of such a key in
the output equals its count in the overrides alone. -/
theorem merge_override_counts (df ov : Headers) (k : ByteStr)
    (h : bytesLower k ∈ ov.map (fun kv => bytesLower kv.1)) :
    countKey k (merge_headers df ov) = countKey k ov ∧
    countKeyCI k (merge_headers df ov) = countKeyCI k ov := by
  have hz : ∀ (p : ByteStr × ByteStr → Bool),
      (∀ kv, p kv = true → bytesLower kv.1 = bytesLower k) →
      (df.filter
        (fun kv => decide
          (bytesLower kv.1 ∉ ov.map (fun kv => bytesLower kv.1)))).countP p = 0 := by
    intro p hp
    rw [List.countP_eq_zero]
    intro kv hkv hpkv
    have hmem := List.mem_filter.mp hkv
    have hlow : bytesLower kv.1 = bytesLower k := hp kv hpkv
    have hnot := of_decide_eq_true hmem.2
    exact hnot (by rw [hlow]; exact h)
  constructor
  · show (merge_headers df ov).countP _ = ov.countP _
    unfold merge_headers
    rw [List.countP_append, hz]
    · simp
    · intro kv hkv
      have : kv.1 = k := of_decide_eq_true hkv
      rw [this]
  · show (merge_headers df ov).countP _ = ov.countP _
    unfold merge_headers
    rw [List.countP_append, hz]
    · simp
    · intro kv hkv
      exact of_decide_eq_true hkv

/-- C7 witness: the key `a` case-insensitively appears among the override
keys, so its counts in the merged output equal its counts in the
overrides. -/
theorem merge_override_counts_witness :
    bytesLower (strBytes "a") ∈
      ([(strBytes "A", strBytes "1")] : Headers).map (fun kv => bytesLower kv.1) ∧
    (countKey (strBytes "a")
        (merge_headers [(strBytes "a", strBytes "0")] [(strBytes "A", strBytes "1")]) =
      countKey (strBytes "a") [(strBytes "A", strBytes "1")] ∧
    countKeyCI (strBytes "a")
        (merge_headers [(strBytes "a", strBytes "0")] [(strBytes "A", strBytes "1")]) =
      countKeyCI (strBytes "a") [(strBytes "A", strBytes "1")]) :=
  ⟨by decide,
    merge_override_counts [(strBytes "a", strBytes "0")] [(strBytes "A", strBytes "1")]
      (strBytes "a") (by decide)⟩

/-- C8: `merge_headers` returns exactly the default pairs whose lower-cased
key is not among the lower-cased override keys, in original order, followed
by all override pairs in original order with key case preserved (stated as
agreement with `specHeaderMerge`, the specification's own wording of the
algorithm), and merging any defaults with empty overrides returns the
defaults unchanged. -/
theorem merge_headers_spec (df ov : Headers) :
    merge_headers df ov = specHeaderMerge df ov ∧ merge_headers df [] = df := by
  constructor
  · rfl
  · simp [merge_headers]

/-- C9: the factory returns a forward connection exactly for destinations
with plaintext scheme `http` and a tunnel connection otherwise, regardless
of the proxy configuration (in particular of the proxy scheme); the
returned connection is bound to the destination as remote origin, and its
`can_handle_request` matches exactly that destination. -/
theorem create_connection_dispatch (self : ProxyPool) (origin : Origin) :
    isForwardConn (create_connection self origin) =
      decide (origin.scheme = strBytes "http") ∧
    connRemoteOrigin (create_connection self origin) = origin ∧
    ∀ o, connCanHandle (create_connection self origin) o = decide (o = origin) := by
  unfold create_connection
  by_cases h : origin.scheme = strBytes "http" <;>
    simp [h, isForwardConn, connRemoteOrigin, connCanHandle,
      forward_can_handle, tunnel_can_handle, initTunnel]

/-- Proxy pool whose own origin is a plaintext origin, used to build a
connection bound to the proxy origin itself. -/
def cexPool : ProxyPool :=
  { proxy_origin := ⟨strBytes "http", strBytes "proxy", 8080⟩
    ssl_context := none
    proxy_ssl_context := none
    proxy_headers := []
    http1 := true
    http2 := false }

/-- C10 counterexample: asking the factory for a connection to the proxy
origin itself yields a forward connection whose `can_handle_request`
answers `true` for the proxy origin — so the proxy origin is not "never a
valid match". -/
theorem can_handle_proxy_origin_cex :
    isForwardConn (create_connection cexPool cexPool.proxy_origin) = true ∧
    connCanHandle (create_connection cexPool cexPool.proxy_origin)
      cexPool.proxy_origin = true := by
  constructor
  · decide
  · decide

/-- C10 (amended): for every forward connection and every tunnel
connection, `can_handle_request origin` answers `true` exactly when
`origin` equals the bound remote origin; consequently the proxy origin
matches only when it equals the bound destination — whenever the proxy
origin differs from the bound remote origin, `can_handle_request` answers
`false` on the proxy origin. -/
theorem can_handle_iff_remote (f : ForwardState) (t : TunnelState) (o : Origin) :
    (forward_can_handle f o = true ↔ o = f.remote_origin) ∧
    (tunnel_can_handle t o = true ↔ o = t.remote_origin) ∧
    (f.proxy_origin ≠ f.remote_origin →
      forward_can_handle f f.proxy_origin = false) ∧
    (t.proxy_origin ≠ t.remote_origin →
      tunnel_can_handle t t.proxy_origin = false) := by
  refine ⟨?_, ?_, ?_, ?_⟩ <;>
    simp [forward_can_handle, tunnel_can_handle]

/-- Forward connection with a remote origin distinct from the proxy origin,
and a tunnel connection likewise. -/
def cexForwardDistinct : ForwardState :=
  { proxy_origin := ⟨strBytes "http", strBytes "proxy", 8080⟩
    remote_origin := ⟨strBytes "http", strBytes "example", 80⟩
    proxy_headers := [] }

/-- C10 witness: for a forward connection whose proxy origin differs from
its bound destination, the proxy origin is not a valid match. -/
theorem can_handle_iff_remote_witness :
    cexForwardDistinct.proxy_origin ≠ cexForwardDistinct.remote_origin ∧
    forward_can_handle cexForwardDistinct cexForwardDistinct.proxy_origin = false :=
  ⟨by decide,
    (can_handle_iff_remote cexForwardDistinct
      (initTunnel cexForwardDistinct.proxy_origin cexForwardDistinct.remote_origin
        none none [] true false)
      cexForwardDistinct.proxy_origin).2.2.1 (by decide)⟩

/-- C2: for every CONNECT response whose status is outside [200, 299], the
call closes the proxy-facing connection and raises a proxy error whose
message is the decimal status, a space, and the reason phrase taken from
the response extensions decoded permissively (malformed bytes dropped,
never raising); a subsequent status query on the connection reports it
closed. -/
theorem tunnel_connect_reject (env : Env) (w : World)
    (hc : w.tunnel.connected = false)
    (hr : w.tunnel.connection = .raw { closed := false })
    (hst : env.connectStatus < 200 ∨ env.connectStatus > 299) :
    (handleRequest env w).1 =
      .proxyError (Nat.repr env.connectStatus ++ " "
        ++ decodeAsciiIgnore (env.reasonPhrase.getD [])) ∧
    tunnel_is_closed (handleRequest env w).2.tunnel = true := by
  rw [handleRequest_fail_eq env w { closed := false } hc hr rfl hst]
  exact ⟨rfl, rfl⟩

/-- Proxy origin used in the concrete tunnel scenarios. -/
def cexProxyOrigin : Origin := ⟨strBytes "http", strBytes "proxy", 8080⟩

/-- Destination origin used in the concrete tunnel scenarios. -/
def cexRemoteOrigin : Origin := ⟨strBytes "https", strBytes "example", 443⟩

/-- A fresh tunnel connection: unconnected, raw proxy-facing connection
open, HTTP/1.1 enabled, HTTP/2 disabled, no client SSL context supplied. -/
def freshTunnel : TunnelState :=
  initTunnel cexProxyOrigin cexRemoteOrigin none none [] true false

/-- A fresh tunnel connection paired with a zeroed handshake counter. -/
def freshTunnelWorld : World := { tunnel := freshTunnel, handshakes := 0 }

/-- A CONNECT response with status 407 whose reason phrase ends in the
malformed byte 255. -/
def cexEnv407 : Env :=
  { connectStatus := 407
    reasonPhrase := some (strBytes "Proxy Authentication Required" ++ [255])
    alpnSelected := none }

/-- C2 witness: with a 407 CONNECT response carrying a reason phrase ending
in a malformed byte, the call raises the proxy error with the permissively
decoded message and the connection then reports closed. -/
theorem tunnel_connect_reject_witness :
    (freshTunnelWorld.tunnel.connected = false ∧
      freshTunnelWorld.tunnel.connection = .raw { closed := false } ∧
      (cexEnv407.connectStatus < 200 ∨ cexEnv407.connectStatus > 299)) ∧
    ((handleRequest cexEnv407 freshTunnelWorld).1 =
        .proxyError (Nat.repr cexEnv407.connectStatus ++ " "
          ++ decodeAsciiIgnore (cexEnv407.reasonPhrase.getD [])) ∧
      tunnel_is_closed (handleRequest cexEnv407 freshTunnelWorld).2.tunnel = true) :=
  ⟨⟨rfl, rfl, Or.inr (by decide)⟩,
    tunnel_connect_reject cexEnv407 freshTunnelWorld rfl rfl (Or.inr (by decide))⟩

/-- C4: at tunnel establishment the HTTP/2 adapter is instantiated exactly
when the negotiated ALPN protocol of the upgraded stream is `"h2"` or
HTTP/2 is enabled while HTTP/1.1 is disabled; in every other case
(including no ALPN match or no ssl object) the HTTP/1.1 adapter is
instantiated. -/
theorem tunnel_adapter_choice (env : Env) (w : World)
    (hc : w.tunnel.connected = false)
    (hr : w.tunnel.connection = .raw { closed := false })
    (hst : 200 ≤ env.connectStatus ∧ env.connectStatus ≤ 299) :
    (isH2 (handleRequest env w).2.tunnel.connection = true ↔
      (env.alpnSelected = some (some "h2") ∨
        (w.tunnel.http2 = true ∧ w.tunnel.http1 = false))) ∧
    (isH11 (handleRequest env w).2.tunnel.connection = true ↔
      ¬(env.alpnSelected = some (some "h2") ∨
        (w.tunnel.http2 = true ∧ w.tunnel.http1 = false))) := by
  rw [handleRequest_success_eq env w { closed := false } hc hr rfl (by omega)]
  by_cases hcond : http2Negotiated env.alpnSelected
      ∨ (w.tunnel.http2 = true ∧ w.tunnel.http1 = false)
  · have hp : env.alpnSelected = some (some "h2") ∨
        (w.tunnel.http2 = true ∧ w.tunnel.http1 = false) := by
      rcases hcond with h | h
      · exact Or.inl ((http2Negotiated_eq _).mp h)
      · exact Or.inr h
    simp only [if_pos hcond]
    simp [isH2, isH11, delegateKind, hp]
  · have hp : ¬(env.alpnSelected = some (some "h2") ∨
        (w.tunnel.http2 = true ∧ w.tunnel.http1 = false)) := by
      intro h
      apply hcond
      rcases h with h | h
      · exact Or.inl ((http2Negotiated_eq _).mpr h)
      · exact Or.inr h
    simp only [if_neg hcond]
    simp [isH2, isH11, delegateKind, hp]

/-- A CONNECT response accepted with status 200, after which ALPN
negotiation selected `"h2"`. -/
def cexEnvH2 : Env :=
  { connectStatus := 200, reasonPhrase := none, alpnSelected := some (some "h2") }

/-- C4 witness: when ALPN negotiation selects `"h2"` on a fresh tunnel, the
adapter instantiated is the HTTP/2 one. -/
theorem tunnel_adapter_choice_witness :
    (freshTunnelWorld.tunnel.connected = false ∧
      freshTunnelWorld.tunnel.connection = .raw { closed := false } ∧
      (200 ≤ cexEnvH2.connectStatus ∧ cexEnvH2.connectStatus ≤ 299)) ∧
    ((isH2 (handleRequest cexEnvH2 freshTunnelWorld).2.tunnel.connection = true ↔
        (cexEnvH2.alpnSelected = some (some "h2") ∨
          (freshTunnelWorld.tunnel.http2 = true ∧
            freshTunnelWorld.tunnel.http1 = false))) ∧
      (isH11 (handleRequest cexEnvH2 freshTunnelWorld).2.tunnel.connection = true ↔
        ¬(cexEnvH2.alpnSelected = some (some "h2") ∨
          (freshTunnelWorld.tunnel.http2 = true ∧
            freshTunnelWorld.tunnel.http1 = false)))) :=
  ⟨⟨rfl, rfl, by decide⟩,
    tunnel_adapter_choice cexEnvH2 freshTunnelWorld rfl rfl (by decide)⟩

/-- C5: every fresh tunnel connection starts unconnected holding the raw
proxy-facing connection; a call on a connected tunnel changes nothing (the
flag never reverts and the delegate is never reassigned afterwards); the
delegate field changes variant only in a call that found the flag false and
set it (and then from the raw connection to an adapter); and a CONNECT
round trip is performed only in a call that found the flag false. -/
theorem tunnel_transition_invariant (env : Env) (w : World) :
    (∀ po ro sc psc ph h1 h2b,
      (initTunnel po ro sc psc ph h1 h2b).connected = false ∧
      delegateKind (initTunnel po ro sc psc ph h1 h2b).connection =
        DelegateKind.raw) ∧
    (w.tunnel.connected = true → (handleRequest env w).2 = w) ∧
    (delegateKind (handleRequest env w).2.tunnel.connection ≠
        delegateKind w.tunnel.connection →
      w.tunnel.connected = false ∧
      (handleRequest env w).2.tunnel.connected = true ∧
      delegateKind w.tunnel.connection = DelegateKind.raw) ∧
    ((handleRequest env w).2.handshakes ≠ w.handshakes →
      w.tunnel.connected = false) ∧
    (w.tunnel.connected = false ∧
        (handleRequest env w).2.tunnel.connected = true →
      delegateKind (handleRequest env w).2.tunnel.connection ≠
        DelegateKind.raw) := by
  have H := handleRequest_outcomes env w
  refine ⟨fun po ro sc psc ph h1 h2b => ⟨rfl, rfl⟩, ?_, ?_, ?_, ?_⟩
  · intro hc
    rcases H with h | ⟨hfalse, _⟩
    · exact h
    · simp [hc] at hfalse
  · intro hkind
    rcases H with h | ⟨hc, _, hcase⟩
    · rw [h] at hkind
      exact absurd rfl hkind
    · rcases hcase with ⟨c, hd, _, hpost⟩ | ⟨hpostc, ⟨c, hd⟩, _⟩
      · exfalso
        apply hkind
        rw [hpost, hd]
        rfl
      · exact ⟨hc, hpostc, by rw [hd]; rfl⟩
  · intro hh
    rcases H with h | ⟨hc, _, _⟩
    · rw [h] at hh
      exact absurd rfl hh
    · exact hc
  · rintro ⟨hc, hpost⟩
    rcases H with h | ⟨_, _, hcase⟩
    · rw [h] at hpost
      simp [hc] at hpost
    · rcases hcase with ⟨c, hd, hpc, _⟩ | ⟨_, _, hkraw⟩
      · simp [hpc] at hpost
      · exact hkraw

/-- A tunnel connection that has already transitioned: connected, holding
an open HTTP/1.1 adapter, with one handshake counted. -/
def connectedTunnelWorld : World :=
  { tunnel := { freshTunnel with
      connection := Delegate.h11 cexRemoteOrigin false
      connected := true }
    handshakes := 1 }

/-- C5 witness: a call on a connected tunnel leaves its state entirely
unchanged. -/
theorem tunnel_transition_invariant_witness :
    connectedTunnelWorld.tunnel.connected = true ∧
    (handleRequest cexEnvH2 connectedTunnelWorld).2 = connectedTunnelWorld :=
  ⟨rfl, (tunnel_transition_invariant cexEnvH2 connectedTunnelWorld).2.1 rfl⟩

/-- An accepted CONNECT after which ALPN fell back to `"http/1.1"`. -/
def cexEnv200 : Env :=
  { connectStatus := 200
    reasonPhrase := none
    alpnSelected := some (some "http/1.1") }

/-- A fresh tunnel connection whose caller supplied an SSL context with an
empty ALPN protocol list. -/
def cexWorldSSL : World :=
  { tunnel := initTunnel cexProxyOrigin cexRemoteOrigin
      (some ⟨[]⟩) none [] true false
    handshakes := 0 }

/-- C6 counterexample: a successful handshake does not leave the
caller-supplied client TLS configuration unchanged — its ALPN protocol
list is overwritten with the offered list. -/
theorem tunnel_mutates_ssl_cex :
    (handleRequest cexEnv200 cexWorldSSL).2.tunnel.ssl_context ≠
      cexWorldSSL.tunnel.ssl_context ∧
    (handleRequest cexEnv200 cexWorldSSL).2.tunnel.ssl_context =
      some ⟨["http/1.1"]⟩ := by
  constructor
  · decide
  · decide

/-- C6 (amended): a call leaves every configuration field unchanged —
proxy origin, remote origin, proxy-facing TLS configuration, proxy
headers, protocol flags — except the client TLS configuration, which is
either untouched or (on a successful handshake) has its ALPN protocol
list set to `["http/1.1", "h2"]` when HTTP/2 is enabled and
`["http/1.1"]` otherwise; when no client TLS configuration was supplied a
library default is used and the stored field stays absent. -/
theorem tunnel_config_frame (env : Env) (w : World) :
    ((handleRequest env w).2.tunnel.proxy_origin = w.tunnel.proxy_origin ∧
      (handleRequest env w).2.tunnel.remote_origin = w.tunnel.remote_origin ∧
      (handleRequest env w).2.tunnel.proxy_ssl_context =
        w.tunnel.proxy_ssl_context ∧
      (handleRequest env w).2.tunnel.proxy_headers = w.tunnel.proxy_headers ∧
      (handleRequest env w).2.tunnel.http1 = w.tunnel.http1 ∧
      (handleRequest env w).2.tunnel.http2 = w.tunnel.http2) ∧
    ((handleRequest env w).2.tunnel.ssl_context = w.tunnel.ssl_context ∨
      (handleRequest env w).2.tunnel.ssl_context =
        w.tunnel.ssl_context.map
          (fun ctx => { ctx with alpn_protocols := alpnOffer w.tunnel.http2 })) := by
  cases hc : w.tunnel.connected with
  | true =>
    rw [handleRequest_connected_eq env w hc]
    exact ⟨⟨rfl, rfl, rfl, rfl, rfl, rfl⟩, Or.inl rfl⟩
  | false =>
    cases hd : w.tunnel.connection with
    | raw c =>
      cases hcl : c.closed with
      | true =>
        rw [handleRequest_closedRaw_eq env w c hc hd hcl]
        exact ⟨⟨rfl, rfl, rfl, rfl, rfl, rfl⟩, Or.inl rfl⟩
      | false =>
        by_cases hst : env.connectStatus < 200 ∨ env.connectStatus > 299
        · rw [handleRequest_fail_eq env w c hc hd hcl hst]
          exact ⟨⟨rfl, rfl, rfl, rfl, rfl, rfl⟩, Or.inl rfl⟩
        · rw [handleRequest_success_eq env w c hc hd hcl hst]
          exact ⟨⟨rfl, rfl, rfl, rfl, rfl, rfl⟩, Or.inr rfl⟩
    | h11 o cl =>
      rw [handleRequest_h11_eq env w o cl hc hd]
      exact ⟨⟨rfl, rfl, rfl, rfl, rfl, rfl⟩, Or.inl rfl⟩
    | h2 o cl =>
      rw [handleRequest_h2_eq env w o cl hc hd]
      exact ⟨⟨rfl, rfl, rfl, rfl, rfl, rfl⟩, Or.inl rfl⟩

/-- C3: for every N ≥ 2 calls on a fresh tunnel connection (their guarded
blocks serialized by the connect lock, in any order), exactly one CONNECT
round trip reaches the stub transport in total, and either every call
succeeds over the shared inner connection or every call fails and the
connection ends up observed as closed after the single rejected
handshake. -/
theorem tunnel_connect_once (env : Env) (t : TunnelState) (n : Nat)
    (hn : 2 ≤ n) (hc : t.connected = false)
    (hr : t.connection = .raw { closed := false }) :
    (runCalls env n { tunnel := t, handshakes := 0 }).1.handshakes = 1 ∧
    (((∀ r ∈ (runCalls env n { tunnel := t, handshakes := 0 }).2,
          r = Result.ok) ∧
        (runCalls env n { tunnel := t, handshakes := 0 }).1.tunnel.connected =
          true) ∨
      ((∀ r ∈ (runCalls env n { tunnel := t, handshakes := 0 }).2,
          r ≠ Result.ok) ∧
        tunnel_is_closed
          (runCalls env n { tunnel := t, handshakes := 0 }).1.tunnel = true)) := by
  obtain ⟨m, rfl⟩ : ∃ m, n = m + 1 := ⟨n - 1, by omega⟩
  by_cases hst : env.connectStatus < 200 ∨ env.connectStatus > 299
  · rw [runCalls_fresh_fail env m { tunnel := t, handshakes := 0 } hc hr hst]
    refine ⟨rfl, Or.inr ⟨?_, rfl⟩⟩
    intro r hmem
    rcases List.mem_cons.mp hmem with rfl | hmem
    · simp
    · rw [List.eq_of_mem_replicate hmem]
      simp
  · rw [runCalls_fresh_success env m { tunnel := t, handshakes := 0 } hc hr hst]
    refine ⟨rfl, Or.inl ⟨?_, rfl⟩⟩
    intro r hmem
    rcases List.mem_cons.mp hmem with rfl | hmem
    · rfl
    · exact List.eq_of_mem_replicate hmem

/-- C3 witness: two calls on a fresh tunnel against an accepting proxy
count exactly one handshake and both succeed. -/
theorem tunnel_connect_once_witness :
    (2 ≤ 2 ∧ freshTunnel.connected = false ∧
      freshTunnel.connection = .raw { closed := false }) ∧
    ((runCalls cexEnvH2 2 { tunnel := freshTunnel, handshakes := 0 }).1.handshakes = 1 ∧
    (((∀ r ∈ (runCalls cexEnvH2 2 { tunnel := freshTunnel, handshakes := 0 }).2,
          r = Result.ok) ∧
        (runCalls cexEnvH2 2
            { tunnel := freshTunnel, handshakes := 0 }).1.tunnel.connected =
          true) ∨
      ((∀ r ∈ (runCalls cexEnvH2 2 { tunnel := freshTunnel, handshakes := 0 }).2,
          r ≠ Result.ok) ∧
        tunnel_is_closed
          (runCalls cexEnvH2 2
            { tunnel := freshTunnel, handshakes := 0 }).1.tunnel = true))) :=
  ⟨⟨by decide, rfl, rfl⟩,
    tunnel_connect_once cexEnvH2 freshTunnel 2 (by decide) rfl rfl⟩

end HttpProxy
